import Mathlib

/-!
Shallow embedding of `src/token_manager.py` (class `TokenManager`).

Modelling conventions:
* `st.session_state` token fields become the `TokenStore` record; the state is
  assumed initialized (as `_initialize_token_state` guarantees on every path).
* `datetime` values are `Int` seconds; `datetime.now().date()` is an abstract
  `today : Int` passed alongside `now`.
* Python truthiness of a token field (`None` and `""` are falsy) is `truthy`.
* The HTTP POST to the auth endpoint is a parameter `AuthResponse`: either an
  exception path (transport error, `raise_for_status` on non-2xx, malformed
  JSON) or a parsed JSON body with the three optional fields the code reads.
* Requests to a target URL in `make_authenticated_request` are parameters of
  type `HttpAttempt` (an exception or a status code); the tokens actually sent
  as `Bearer` headers are collected in order in `sends`.
-/

/-- The token fields of `st.session_state`, as initialized by
`_initialize_token_state`. -/
structure TokenStore where
  access_token : Option String
  refresh_token : Option String
  token_expires_at : Option Int
  last_refresh_time : Option Int
  refresh_count_today : Nat
  refresh_date : Int
deriving Repr, DecidableEq

/-- Python truthiness of an optional token string: `None` and `""` are falsy. -/
def truthy : Option String → Bool
  | none => false
  | some s => s != ""

/-- `_is_token_expired`: no token or no expiry means expired; otherwise expired
iff `datetime.now() >= token_expires_at - timedelta(minutes=5)`. -/
def is_token_expired (s : TokenStore) (now : Int) : Bool :=
  if !truthy s.access_token then true
  else
    match s.token_expires_at with
    | none => true
    | some e => decide (e - 300 ≤ now)

/-- Reason `_can_refresh_token` returns `False` (the code shows distinct UI
messages for the two guards). -/
inductive CanRefreshError
  | dailyLimit
  | tooSoon (remainingMinutes : Int)
deriving Repr, DecidableEq

/-- `_can_refresh_token`: resets the daily counter on date rollover, then
checks the daily limit (10) and the 2-minute minimum interval.  Returns the
failure reason (if any) together with the possibly-updated store.  The reported
remaining wait is `remaining_time.seconds // 60 + 1` minutes. -/
def can_refresh_token (s : TokenStore) (now today : Int) :
    Option CanRefreshError × TokenStore :=
  let s1 := if s.refresh_date ≠ today then
    { s with refresh_count_today := 0, refresh_date := today } else s
  if s1.refresh_count_today ≥ 10 then (some .dailyLimit, s1)
  else
    match s1.last_refresh_time with
    | some t =>
      if now - t < 120 then
        (some (.tooSoon (((120 - (now - t)) % 86400) / 60 + 1)), s1)
      else (none, s1)
    | none => (none, s1)

/-- `_save_tokens_to_persistent_storage`: overwrites the access and refresh
tokens, and the expiry only when the passed `expires_at` is truthy. -/
def save_tokens_to_persistent_storage (s : TokenStore)
    (access refresh : Option String) (expires_at : Option Int) : TokenStore :=
  let s1 := { s with access_token := access, refresh_token := refresh }
  match expires_at with
  | some e => { s1 with token_expires_at := some e }
  | none => s1

/-- Parsed JSON body of a 2xx auth-endpoint response; each field is `none`
when the key is absent (the code reads them with `data.get`). -/
structure RespBody where
  access_token : Option String
  refresh_token : Option String
  expires_in : Option Int
deriving Repr, DecidableEq

/-- Outcome of `requests.post` to the auth endpoint followed by
`raise_for_status` and `json()`: `failure` covers transport errors, non-2xx
statuses and malformed JSON (all reach the same `except` clause). -/
inductive AuthResponse
  | failure
  | success (body : RespBody)
deriving Repr, DecidableEq

/-- The exceptions `_refresh_access_token` can raise. -/
inductive RefreshError
  | noRefreshToken
  | rateLimits (e : CanRefreshError)
  | refreshFailed
deriving Repr, DecidableEq

/-- Result of `_refresh_access_token`: the raised exception or the returned
token, the session state afterwards, and whether the HTTP POST to the auth
endpoint was issued. -/
structure RefreshOutcome where
  result : Except RefreshError (Option String)
  store : TokenStore
  networkCall : Bool
deriving Repr

/-- `_refresh_access_token`: guard on refresh-token presence, then
`_can_refresh_token`, then the POST; on success extract `access_token`,
`refresh_token` (falling back to the stored one), `expires_in` (default 3600),
set `last_refresh_time := now`, increment `refresh_count_today`, save the new
fields, and return the stored access token. -/
def refresh_access_token (s : TokenStore) (now today : Int)
    (resp : AuthResponse) : RefreshOutcome :=
  if !truthy s.refresh_token then ⟨.error .noRefreshToken, s, false⟩
  else
    match can_refresh_token s now today with
    | (some e, s1) => ⟨.error (.rateLimits e), s1, false⟩
    | (none, s1) =>
      match resp with
      | .failure => ⟨.error .refreshFailed, s1, true⟩
      | .success body =>
        let new_refresh : Option String :=
          match body.refresh_token with
          | some r => some r
          | none => s1.refresh_token
        let expires_in := body.expires_in.getD 3600
        let expires_at := now + expires_in
        let s2 := { s1 with last_refresh_time := some now,
                            refresh_count_today := s1.refresh_count_today + 1 }
        let s3 := save_tokens_to_persistent_storage s2 body.access_token
          new_refresh (some expires_at)
        ⟨.ok s3.access_token, s3, true⟩

/-- Result of `get_valid_access_token`: the returned token (`none` for Python
`None`), the session state afterwards, whether `_refresh_access_token` was
called, whether the auth endpoint was contacted, and whether the
"potentially expired token" fallback warning was shown. -/
structure GetTokenResult where
  token : Option String
  store : TokenStore
  refreshAttempted : Bool
  networkCall : Bool
  staleWarning : Bool
deriving Repr, DecidableEq

/-- `get_valid_access_token`: return the stored token when truthy and not
expired; otherwise try a refresh, falling back to the (possibly expired)
stored token with a warning, or `None` when no token exists. -/
def get_valid_access_token (s : TokenStore) (now today : Int)
    (resp : AuthResponse) : GetTokenResult :=
  if truthy s.access_token && !is_token_expired s now then
    ⟨s.access_token, s, false, false, false⟩
  else
    let o := refresh_access_token s now today resp
    match o.result with
    | .ok t => ⟨t, o.store, true, o.networkCall, false⟩
    | .error _ =>
      if truthy o.store.access_token then
        ⟨o.store.access_token, o.store, true, o.networkCall, true⟩
      else
        ⟨none, o.store, true, o.networkCall, false⟩

/-- The snapshot dictionary built by `get_token_status`. -/
structure TokenStatus where
  has_access_token : Bool
  has_refresh_token : Bool
  expires_at : Option Int
  is_expired : Bool
  refresh_count_today : Nat
  last_refresh_time : Option Int
deriving Repr, DecidableEq

/-- `get_token_status`: reads the session fields and `_is_token_expired`; the
method performs no assignment, so the state component is returned as is. -/
def get_token_status (s : TokenStore) (now : Int) : TokenStatus × TokenStore :=
  (⟨truthy s.access_token, truthy s.refresh_token, s.token_expires_at,
    is_token_expired s now, s.refresh_count_today, s.last_refresh_time⟩, s)

/-- Outcome of one `requests.request` call to the target URL: a raised
`RequestException` or a response with a status code. -/
inductive HttpAttempt
  | raise
  | status (code : Nat)
deriving Repr, DecidableEq

/-- The forced invalidation on an observed 401:
`st.session_state.token_expires_at = datetime.now() - timedelta(minutes=1)`. -/
def force_expire (s : TokenStore) (now : Int) : TokenStore :=
  { s with token_expires_at := some (now - 60) }

/-- Result of `make_authenticated_request`: the returned response status
(`none` for Python `None`), the session state afterwards, the bearer tokens
sent to the target URL in order, and how many times
`get_valid_access_token` ran. -/
structure RequestOutcome where
  result : Option Nat
  store : TokenStore
  sends : List String
  getValidCalls : Nat
deriving Repr, DecidableEq

/-- `make_authenticated_request`: obtain a token (abort on a falsy one), send;
on a 401 force-expire the token, re-acquire via `get_valid_access_token`, and
if a token came back resend once, returning that second response; otherwise
return the original 401.  A raised `RequestException` yields `None`. -/
def make_authenticated_request (s : TokenStore) (now today : Int)
    (auth1 auth2 : AuthResponse) (first second : HttpAttempt) :
    RequestOutcome :=
  let g1 := get_valid_access_token s now today auth1
  if !truthy g1.token then ⟨none, g1.store, [], 1⟩
  else
    let tok := g1.token.getD ""
    match first with
    | .raise => ⟨none, g1.store, [tok], 1⟩
    | .status code =>
      if code = 401 then
        let g2 := get_valid_access_token (force_expire g1.store now) now today
          auth2
        if !truthy g2.token then ⟨some 401, g2.store, [tok], 2⟩
        else
          let tok2 := g2.token.getD ""
          match second with
          | .raise => ⟨none, g2.store, [tok, tok2], 2⟩
          | .status code2 => ⟨some code2, g2.store, [tok, tok2], 2⟩
      else ⟨some code, g1.store, [tok], 1⟩

/-- Iterated refresh attempts (for day-scoped counter invariants): each list
entry supplies the clock, date and auth-endpoint behaviour of one attempt. -/
def run_refreshes (s : TokenStore) (l : List (Int × Int × AuthResponse)) :
    TokenStore :=
  l.foldl (fun st p => (refresh_access_token st p.1 p.2.1 p.2.2).store) s

/-! ### Helper lemmas -/

/-- `_can_refresh_token` only ever writes the counter and the date: the four
token fields of its result state are those of the input state. -/
theorem can_refresh_token_snd (s : TokenStore) (now today : Int) :
    (can_refresh_token s now today).2 =
      if s.refresh_date ≠ today then
        { s with refresh_count_today := 0, refresh_date := today } else s := by
  by_cases hd : s.refresh_date = today
  · simp only [can_refresh_token, hd, ne_eq, not_true_eq_false, if_false,
      ite_false]
    by_cases hc : s.refresh_count_today ≥ 10
    · simp [hc]
    · cases hl : s.last_refresh_time with
      | none => simp [hc, hl]
      | some t =>
        by_cases hi : now - t < 120 <;> simp [hc, hl, hi]
  · simp only [can_refresh_token, hd, ne_eq, not_false_eq_true, if_true,
      ite_true]
    by_cases hc : (10 : Nat) ≤ 0
    · simp at hc
    · simp only [ge_iff_le, hc, if_false, ite_false]
      cases hl : s.last_refresh_time with
      | none => simp
      | some t =>
        by_cases hi : now - t < 120 <;> simp [hi]

/-- `_can_refresh_token` returns `True` (no error) iff the post-rollover
counter is below 10 and any recorded last refresh is at least 2 minutes old. -/
theorem can_refresh_token_ok_iff (s : TokenStore) (now today : Int) :
    (can_refresh_token s now today).1 = none ↔
      ((can_refresh_token s now today).2.refresh_count_today < 10 ∧
       ∀ t, s.last_refresh_time = some t → 120 ≤ now - t) := by
  have hsnd := can_refresh_token_snd s now today
  by_cases hd : s.refresh_date = today
  · simp only [can_refresh_token, hd, ne_eq, not_true_eq_false, if_false,
      ite_false] at hsnd ⊢
    by_cases hc : s.refresh_count_today ≥ 10
    · simp [hc, hsnd]
    · cases hl : s.last_refresh_time with
      | none => simp [hc, hl, hsnd]; omega
      | some t =>
        by_cases hi : now - t < 120 <;> simp [hc, hl, hi, hsnd] <;> omega
  · simp only [can_refresh_token, hd, ne_eq, not_false_eq_true, if_true,
      ite_true] at hsnd ⊢
    by_cases hc : (10 : Nat) ≤ 0
    · simp at hc
    · simp only [ge_iff_le, hc, if_false, ite_false]
      cases hl : s.last_refresh_time with
      | none => simp [hsnd]
      | some t =>
        by_cases hi : now - t < 120 <;> simp [hi, hsnd] <;> omega

/-- On every exception path of `_refresh_access_token` the four token fields
are untouched (only the rollover reset in `_can_refresh_token` may have
changed the counter and the date). -/
theorem refresh_access_token_error_fields (s : TokenStore) (now today : Int)
    (resp : AuthResponse) (e : RefreshError)
    (herr : (refresh_access_token s now today resp).result = .error e) :
    (refresh_access_token s now today resp).store.access_token = s.access_token
    ∧ (refresh_access_token s now today resp).store.refresh_token
        = s.refresh_token
    ∧ (refresh_access_token s now today resp).store.token_expires_at
        = s.token_expires_at
    ∧ (refresh_access_token s now today resp).store.last_refresh_time
        = s.last_refresh_time := by
  have hsnd := can_refresh_token_snd s now today
  by_cases hrt : truthy s.refresh_token
  · rcases hcc : can_refresh_token s now today with ⟨oe, s1⟩
    rw [hcc] at hsnd
    have hsnd2 : s1 = (if s.refresh_date ≠ today then
        { s with refresh_count_today := 0, refresh_date := today } else s) :=
      hsnd
    have hs1 : s1.access_token = s.access_token ∧
        s1.refresh_token = s.refresh_token ∧
        s1.token_expires_at = s.token_expires_at ∧
        s1.last_refresh_time = s.last_refresh_time := by
      rw [hsnd2]
      by_cases hd : s.refresh_date ≠ today <;> simp [hd]
    cases oe with
    | some e2 => simp only [refresh_access_token, hrt, Bool.not_true,
        Bool.false_eq_true, if_false, hcc, ite_false]; exact hs1
    | none =>
      cases resp with
      | failure => simp only [refresh_access_token, hrt, Bool.not_true,
          Bool.false_eq_true, if_false, hcc, ite_false]; exact hs1
      | success body =>
        exfalso
        simp [refresh_access_token, hrt, hcc] at herr
  · simp [refresh_access_token, hrt]

/-- `get_valid_access_token`, unfolded on the fast path: truthy, unexpired
token. -/
theorem get_valid_unfold_valid (s : TokenStore) (now today : Int)
    (resp : AuthResponse)
    (hguard : (truthy s.access_token && !is_token_expired s now) = true) :
    get_valid_access_token s now today resp
      = ⟨s.access_token, s, false, false, false⟩ := by
  simp [get_valid_access_token, hguard]

/-- `get_valid_access_token`, unfolded when the stored token is unusable and
the refresh returns. -/
theorem get_valid_unfold_ok (s : TokenStore) (now today : Int)
    (resp : AuthResponse) (t : Option String)
    (hguard : (truthy s.access_token && !is_token_expired s now) = false)
    (hok : (refresh_access_token s now today resp).result = .ok t) :
    get_valid_access_token s now today resp
      = ⟨t, (refresh_access_token s now today resp).store, true,
          (refresh_access_token s now today resp).networkCall, false⟩ := by
  simp [get_valid_access_token, hguard, hok]

/-- `get_valid_access_token`, unfolded when the stored token is unusable and
the refresh raises: the stale-token fallback. -/
theorem get_valid_unfold_error (s : TokenStore) (now today : Int)
    (resp : AuthResponse) (e : RefreshError)
    (hguard : (truthy s.access_token && !is_token_expired s now) = false)
    (herr : (refresh_access_token s now today resp).result = .error e) :
    get_valid_access_token s now today resp
      = (if truthy (refresh_access_token s now today resp).store.access_token
        then
          ⟨(refresh_access_token s now today resp).store.access_token,
           (refresh_access_token s now today resp).store, true,
           (refresh_access_token s now today resp).networkCall, true⟩
        else
          ⟨none, (refresh_access_token s now today resp).store, true,
           (refresh_access_token s now today resp).networkCall, false⟩) := by
  simp [get_valid_access_token, hguard, herr]

/-! ### Claim theorems -/

/-- C6: with an access token present and `expires_at` more than 5 minutes in
the future, `get_valid_access_token` returns the stored token immediately with
no refresh attempt, no network call and no store mutation; with `expires_at`
within 5 minutes (inclusive) or past, the token counts as expired and a
refresh attempt is triggered. -/
theorem c6_expiry_buffer (s : TokenStore) (now today e : Int)
    (resp : AuthResponse)
    (hacc : truthy s.access_token = true)
    (hexp : s.token_expires_at = some e) :
    (now < e - 300 →
      get_valid_access_token s now today resp
        = ⟨s.access_token, s, false, false, false⟩)
    ∧ (e - 300 ≤ now →
      is_token_expired s now = true
      ∧ (get_valid_access_token s now today resp).refreshAttempted = true) := by
  constructor
  · intro h
    have hexp2 : is_token_expired s now = false := by
      simp only [is_token_expired, hacc, Bool.not_true, Bool.false_eq_true,
        if_false, hexp, decide_eq_false_iff_not, ite_false]
      omega
    exact get_valid_unfold_valid s now today resp (by simp [hacc, hexp2])
  · intro h
    have hexp2 : is_token_expired s now = true := by
      simp only [is_token_expired, hacc, Bool.not_true, Bool.false_eq_true,
        if_false, hexp, decide_eq_true_eq, ite_false]
      omega
    refine ⟨hexp2, ?_⟩
    have hguard : (truthy s.access_token && !is_token_expired s now) = false :=
      by simp [hexp2]
    cases hres : (refresh_access_token s now today resp).result with
    | ok t => rw [get_valid_unfold_ok s now today resp t hguard hres]
    | error e2 =>
      rw [get_valid_unfold_error s now today resp e2 hguard hres]
      split <;> rfl

/-- Witness for C6 at a concrete store and clock. -/
theorem c6_expiry_buffer_witness :
    get_valid_access_token ⟨some "A", some "R", some 1000, none, 0, 0⟩ 0 0
        .failure
      = ⟨some "A", ⟨some "A", some "R", some 1000, none, 0, 0⟩,
          false, false, false⟩ :=
  (c6_expiry_buffer ⟨some "A", some "R", some 1000, none, 0, 0⟩ 0 0 1000
    .failure rfl rfl).1 (by decide)

/-- C9: `get_token_status` mutates no `TokenStore` field and reports exactly
the stored token presences, expiry, the expired flag computed by the same
5-minute-buffer `_is_token_expired`, the daily refresh count and the last
refresh time. -/
theorem c9_status_snapshot_pure (s : TokenStore) (now : Int) :
    (get_token_status s now).2 = s
    ∧ (get_token_status s now).1.has_access_token = truthy s.access_token
    ∧ (get_token_status s now).1.has_refresh_token = truthy s.refresh_token
    ∧ (get_token_status s now).1.expires_at = s.token_expires_at
    ∧ (get_token_status s now).1.is_expired = is_token_expired s now
    ∧ (get_token_status s now).1.refresh_count_today = s.refresh_count_today
    ∧ (get_token_status s now).1.last_refresh_time = s.last_refresh_time :=
  ⟨rfl, rfl, rfl, rfl, rfl, rfl, rfl⟩

/-- C8: with neither an access token nor a refresh token,
`get_valid_access_token` returns `None` without contacting the auth endpoint,
and `make_authenticated_request` aborts with `None`, leaving the store as is
and sending no HTTP request to the target URL. -/
theorem c8_no_credential_aborts (s : TokenStore) (now today : Int)
    (a1 a2 : AuthResponse) (f g : HttpAttempt)
    (hacc : truthy s.access_token = false)
    (hrt : truthy s.refresh_token = false) :
    (get_valid_access_token s now today a1).token = none
    ∧ (get_valid_access_token s now today a1).networkCall = false
    ∧ make_authenticated_request s now today a1 a2 f g = ⟨none, s, [], 1⟩ := by
  have hr : refresh_access_token s now today a1
      = ⟨.error .noRefreshToken, s, false⟩ := by
    simp [refresh_access_token, hrt]
  have hg : get_valid_access_token s now today a1
      = ⟨none, s, true, false, false⟩ := by
    rw [get_valid_unfold_error s now today a1 .noRefreshToken
      (by simp [hacc]) (by rw [hr])]
    rw [hr]
    simp [hacc]
  refine ⟨by rw [hg], by rw [hg], ?_⟩
  simp [make_authenticated_request, hg, truthy]

/-- Witness for C8 at the empty store. -/
theorem c8_no_credential_aborts_witness :
    (get_valid_access_token ⟨none, none, none, none, 0, 0⟩ 0 0 .failure).token
        = none
    ∧ (get_valid_access_token ⟨none, none, none, none, 0, 0⟩ 0 0
        .failure).networkCall = false
    ∧ make_authenticated_request ⟨none, none, none, none, 0, 0⟩ 0 0 .failure
        .failure (.status 200) (.status 200)
      = ⟨none, ⟨none, none, none, none, 0, 0⟩, [], 1⟩ :=
  c8_no_credential_aborts ⟨none, none, none, none, 0, 0⟩ 0 0 .failure .failure
    (.status 200) (.status 200) rfl rfl

/-- C2: when the stored token is unusable and the refresh attempt raises for
any reason, `get_valid_access_token` returns the (possibly expired) stored
access token with the staleness warning when one is present, and `None` (no
credential) when none is. -/
theorem c2_stale_token_fallback (s : TokenStore) (now today : Int)
    (resp : AuthResponse) (e : RefreshError)
    (hguard : (truthy s.access_token && !is_token_expired s now) = false)
    (herr : (refresh_access_token s now today resp).result = .error e) :
    (truthy s.access_token = true →
      (get_valid_access_token s now today resp).token = s.access_token
      ∧ (get_valid_access_token s now today resp).staleWarning = true)
    ∧ (truthy s.access_token = false →
      (get_valid_access_token s now today resp).token = none
      ∧ (get_valid_access_token s now today resp).staleWarning = false) := by
  have hacc :=
    (refresh_access_token_error_fields s now today resp e herr).1
  rw [get_valid_unfold_error s now today resp e hguard herr]
  constructor
  · intro h
    have h2 : truthy
        (refresh_access_token s now today resp).store.access_token = true := by
      rw [hacc]; exact h
    simp [h2, hacc, h]
  · intro h
    have h2 : truthy
        (refresh_access_token s now today resp).store.access_token = false :=
      by rw [hacc]; exact h
    simp [h2]

/-- Witness for C2: rate-limited refresh with an expired stored token. -/
theorem c2_stale_token_fallback_witness :
    (get_valid_access_token ⟨some "OLD", some "R", some 0, none, 10, 0⟩ 100 0
        .failure).token = some "OLD"
    ∧ (get_valid_access_token ⟨some "OLD", some "R", some 0, none, 10, 0⟩ 100 0
        .failure).staleWarning = true :=
  (c2_stale_token_fallback ⟨some "OLD", some "R", some 0, none, 10, 0⟩ 100 0
    .failure (.rateLimits .dailyLimit) rfl rfl).1 rfl

/-- A single `_refresh_access_token` attempt keeps the daily counter at or
below 10. -/
theorem refresh_access_token_count_le (s : TokenStore) (now today : Int)
    (resp : AuthResponse) (h : s.refresh_count_today ≤ 10) :
    (refresh_access_token s now today resp).store.refresh_count_today ≤ 10 :=
  by
  by_cases hrt : truthy s.refresh_token
  · rcases hcc : can_refresh_token s now today with ⟨oe, s1⟩
    have hsnd2 : s1 = (if s.refresh_date ≠ today then
        { s with refresh_count_today := 0, refresh_date := today } else s) :=
      by have h2 := can_refresh_token_snd s now today; rw [hcc] at h2; exact h2
    have hs1le : s1.refresh_count_today ≤ 10 := by
      rw [hsnd2]; split <;> simp [h]
    cases oe with
    | some e2 =>
      simp only [refresh_access_token, hrt, Bool.not_true, Bool.false_eq_true,
        if_false, hcc, ite_false]
      exact hs1le
    | none =>
      have hlt : s1.refresh_count_today < 10 := by
        have hiff := can_refresh_token_ok_iff s now today
        rw [hcc] at hiff
        exact (hiff.mp rfl).1
      cases resp with
      | failure =>
        simp only [refresh_access_token, hrt, Bool.not_true,
          Bool.false_eq_true, if_false, hcc, ite_false]
        omega
      | success body =>
        simp only [refresh_access_token, hrt, Bool.not_true,
          Bool.false_eq_true, if_false, hcc, ite_false,
          save_tokens_to_persistent_storage]
        omega
  · simp only [refresh_access_token, hrt, Bool.not_false, if_true, ite_true]
    exact h

/-- The counter bound is preserved by any sequence of refresh attempts. -/
theorem run_refreshes_count_le (l : List (Int × Int × AuthResponse))
    (s : TokenStore) (h : s.refresh_count_today ≤ 10) :
    (run_refreshes s l).refresh_count_today ≤ 10 := by
  induction l generalizing s with
  | nil => exact h
  | cons p l ih =>
    simp only [run_refreshes, List.foldl_cons]
    exact ih _ (refresh_access_token_count_le s p.1 p.2.1 p.2.2 h)

/-- C3: across any sequence of refresh attempts the daily counter never
exceeds 10; with the cap reached on the current date, a further attempt fails
with the daily-limit error before any network call and leaves the store
unchanged; and when the stored date differs from the current date the
precondition check resets the counter to 0 and updates the date, so the
attempt proceeds to the network despite a cap hit on the previous day. -/
theorem c3_daily_refresh_cap (s : TokenStore) (now today : Int)
    (resp : AuthResponse) (l : List (Int × Int × AuthResponse)) :
    (s.refresh_count_today ≤ 10 →
      (run_refreshes s l).refresh_count_today ≤ 10)
    ∧ (s.refresh_date = today → 10 ≤ s.refresh_count_today →
        truthy s.refresh_token = true →
        refresh_access_token s now today resp
          = ⟨.error (.rateLimits .dailyLimit), s, false⟩)
    ∧ (s.refresh_date ≠ today →
        (can_refresh_token s now today).2.refresh_count_today = 0
        ∧ (can_refresh_token s now today).2.refresh_date = today
        ∧ (truthy s.refresh_token = true →
            (∀ t, s.last_refresh_time = some t → 120 ≤ now - t) →
            (refresh_access_token s now today resp).networkCall = true)) := by
  refine ⟨run_refreshes_count_le l s, ?_, ?_⟩
  · intro hd hc hrt
    have hcc : can_refresh_token s now today = (some .dailyLimit, s) := by
      simp [can_refresh_token, hd, hc]
    simp [refresh_access_token, hrt, hcc]
  · intro hd
    have hsnd := can_refresh_token_snd s now today
    rw [if_pos hd] at hsnd
    refine ⟨by rw [hsnd], by rw [hsnd], ?_⟩
    intro hrt hint
    have hok : (can_refresh_token s now today).1 = none := by
      rw [can_refresh_token_ok_iff]
      exact ⟨by rw [hsnd]; simp, hint⟩
    rcases hcc : can_refresh_token s now today with ⟨oe, s1⟩
    rw [hcc] at hok
    have hoe : oe = none := hok
    subst hoe
    cases resp <;>
      simp [refresh_access_token, hrt, hcc, save_tokens_to_persistent_storage]

/-- Witness for C3: the 11th same-day attempt is rejected without a call. -/
theorem c3_daily_refresh_cap_witness :
    refresh_access_token ⟨some "A", some "R", some 0, none, 10, 0⟩ 0 0 .failure
      = ⟨.error (.rateLimits .dailyLimit),
          ⟨some "A", some "R", some 0, none, 10, 0⟩, false⟩ :=
  (c3_daily_refresh_cap ⟨some "A", some "R", some 0, none, 10, 0⟩ 0 0 .failure
    []).2.1 rfl (by decide) rfl

/-- C7 (amended): with a refresh token, same-day state, daily capacity left
and a recorded last refresh, an attempt less than 2 minutes after it fails
with the too-soon error reporting the remaining wait and leaves the store
unchanged, while an attempt 2 minutes or more after it passes the
preconditions and reaches the network. -/
theorem c7_min_refresh_interval (s : TokenStore) (now today t : Int)
    (resp : AuthResponse)
    (hrt : truthy s.refresh_token = true)
    (hdate : s.refresh_date = today)
    (hcap : s.refresh_count_today < 10)
    (hlast : s.last_refresh_time = some t)
    (h0 : 0 ≤ now - t) :
    (now - t < 120 →
      refresh_access_token s now today resp
        = ⟨.error (.rateLimits (.tooSoon ((120 - (now - t)) / 60 + 1))), s,
            false⟩)
    ∧ (120 ≤ now - t →
      (refresh_access_token s now today resp).networkCall = true) := by
  constructor
  · intro hi
    have hcap2 : ¬ (s.refresh_count_today ≥ 10) := by omega
    have hmod : (120 - (now - t)) % 86400 = 120 - (now - t) :=
      Int.emod_eq_of_lt (by omega) (by omega)
    have hcc : can_refresh_token s now today
        = (some (.tooSoon ((120 - (now - t)) / 60 + 1)), s) := by
      simp [can_refresh_token, hdate, hcap2, hlast, hi, hmod]
    simp [refresh_access_token, hrt, hcc]
  · intro hi
    have hcc1 : (can_refresh_token s now today).1 = none := by
      rw [can_refresh_token_ok_iff]
      constructor
      · rw [can_refresh_token_snd, if_neg (by simp [hdate])]
        exact hcap
      · intro t2 ht2
        rw [hlast] at ht2
        simp only [Option.some.injEq] at ht2
        subst ht2
        exact hi
    rcases hcc : can_refresh_token s now today with ⟨oe, s1⟩
    rw [hcc] at hcc1
    have hoe : oe = none := hcc1
    subst hoe
    cases resp <;>
      simp [refresh_access_token, hrt, hcc, save_tokens_to_persistent_storage]

/-- Witness for C7: an attempt 60 seconds after the last refresh is rejected
with a 2-minute wait report; one 120 seconds after it reaches the network. -/
theorem c7_min_refresh_interval_witness :
    refresh_access_token ⟨some "A", some "R", some 0, some 0, 3, 5⟩ 60 5
        .failure
      = ⟨.error (.rateLimits (.tooSoon 2)),
          ⟨some "A", some "R", some 0, some 0, 3, 5⟩, false⟩ :=
  (c7_min_refresh_interval ⟨some "A", some "R", some 0, some 0, 3, 5⟩ 60 5 0
    .failure rfl rfl (by decide) rfl (by decide)).1 (by decide)

/-- C7 counterexample: right after the day's 10th successful refresh, an
attempt only 60 seconds later fails with the daily-limit error, not the
too-soon error the claim promises for every pair under 2 minutes apart. -/
theorem c7_counterexample :
    (refresh_access_token ⟨some "A", some "R", some 0, some 0, 9, 5⟩ 1000 5
        (.success ⟨some "A2", none, none⟩)).result = .ok (some "A2")
    ∧ (refresh_access_token ⟨some "A", some "R", some 0, some 0, 9, 5⟩ 1000 5
        (.success ⟨some "A2", none, none⟩)).store.last_refresh_time
      = some 1000
    ∧ (refresh_access_token (refresh_access_token ⟨some "A", some "R", some 0,
        some 0, 9, 5⟩ 1000 5 (.success ⟨some "A2", none, none⟩)).store 1060 5
        .failure).result = .error (.rateLimits .dailyLimit)
    ∧ (refresh_access_token (refresh_access_token ⟨some "A", some "R", some 0,
        some 0, 9, 5⟩ 1000 5 (.success ⟨some "A2", none, none⟩)).store 1060 5
        .failure).result ≠ .error (.rateLimits (.tooSoon 2)) :=
  ⟨rfl, rfl, rfl, by
    intro h
    have h2 : (Except.error (RefreshError.rateLimits .dailyLimit) :
        Except RefreshError (Option String))
        = Except.error (.rateLimits (.tooSoon 2)) := h
    simp at h2⟩

/-- Full characterization of a refresh whose preconditions pass and whose
auth-endpoint response is a 2xx with parsed body. -/
theorem refresh_success_spec (s : TokenStore) (now today : Int)
    (body : RespBody)
    (hrt : truthy s.refresh_token = true)
    (hok : (can_refresh_token s now today).1 = none) :
    refresh_access_token s now today (.success body)
      = ⟨.ok body.access_token,
          ⟨body.access_token,
           (match body.refresh_token with
            | some r => some r
            | none => s.refresh_token),
           some (now + body.expires_in.getD 3600),
           some now,
           (can_refresh_token s now today).2.refresh_count_today + 1,
           (can_refresh_token s now today).2.refresh_date⟩,
          true⟩ := by
  rcases hcc : can_refresh_token s now today with ⟨oe, s1⟩
  rw [hcc] at hok
  have hoe : oe = none := hok
  subst hoe
  have hsnd2 : s1 = (if s.refresh_date ≠ today then
      { s with refresh_count_today := 0, refresh_date := today } else s) :=
    by have h2 := can_refresh_token_snd s now today; rw [hcc] at h2; exact h2
  have hrfr : s1.refresh_token = s.refresh_token := by
    rw [hsnd2]; split <;> rfl
  cases hbr : body.refresh_token with
  | none =>
    simp [refresh_access_token, hrt, hcc, hbr,
      save_tokens_to_persistent_storage, hrfr]
  | some r =>
    simp [refresh_access_token, hrt, hcc, hbr,
      save_tokens_to_persistent_storage]

/-- C4 (amended): a successful refresh stores the response's access token,
the response's refresh token (keeping the prior one if the response omits it),
`expires_at = now + expires_in` with a 3600-second default,
`last_refresh_time = now`, and a counter exactly one above its value after the
precondition check — which is the pre-attempt value on a same-day refresh and
0 after a day rollover. -/
theorem c4_refresh_success_update (s : TokenStore) (now today : Int)
    (body : RespBody)
    (hrt : truthy s.refresh_token = true)
    (hok : (can_refresh_token s now today).1 = none) :
    (refresh_access_token s now today (.success body)).result
        = .ok body.access_token
    ∧ (refresh_access_token s now today (.success body)).store.access_token
        = body.access_token
    ∧ (refresh_access_token s now today (.success body)).store.refresh_token
        = (match body.refresh_token with
           | some r => some r
           | none => s.refresh_token)
    ∧ (refresh_access_token s now today
        (.success body)).store.token_expires_at
        = some (now + body.expires_in.getD 3600)
    ∧ (refresh_access_token s now today
        (.success body)).store.last_refresh_time = some now
    ∧ (refresh_access_token s now today
        (.success body)).store.refresh_count_today
        = (can_refresh_token s now today).2.refresh_count_today + 1
    ∧ (s.refresh_date = today →
        (refresh_access_token s now today
          (.success body)).store.refresh_count_today
          = s.refresh_count_today + 1) := by
  rw [refresh_success_spec s now today body hrt hok]
  refine ⟨rfl, rfl, rfl, rfl, rfl, rfl, ?_⟩
  intro hd
  have : (can_refresh_token s now today).2 = s := by
    rw [can_refresh_token_snd, if_neg (by simp [hd])]
  rw [this]

/-- Witness for C4: the spec's own scenario — access token absent, refresh
token present, response `access_token A1`, `expires_in 3600`, no refresh
token in the response. -/
theorem c4_refresh_success_update_witness :
    (refresh_access_token ⟨none, some "R", none, none, 0, 0⟩ 100 0
        (.success ⟨some "A1", none, some 3600⟩)).store.access_token = some "A1"
    ∧ (refresh_access_token ⟨none, some "R", none, none, 0, 0⟩ 100 0
        (.success ⟨some "A1", none, some 3600⟩)).store.refresh_token = some "R"
    ∧ (refresh_access_token ⟨none, some "R", none, none, 0, 0⟩ 100 0
        (.success ⟨some "A1", none, some 3600⟩)).store.token_expires_at
      = some 3700
    ∧ (refresh_access_token ⟨none, some "R", none, none, 0, 0⟩ 100 0
        (.success ⟨some "A1", none, some 3600⟩)).store.refresh_count_today
      = 1 :=
  have h := c4_refresh_success_update ⟨none, some "R", none, none, 0, 0⟩ 100 0
    ⟨some "A1", none, some 3600⟩ rfl rfl
  ⟨h.2.1, h.2.2.1, h.2.2.2.1, h.2.2.2.2.2.2 rfl⟩

/-- C4 counterexample: on a day rollover a successful refresh sets the
counter to 1, not to the pre-attempt value plus 1. -/
theorem c4_counterexample :
    (refresh_access_token ⟨none, some "R", none, none, 5, 0⟩ 100 1
        (.success ⟨some "A1", none, some 3600⟩)).result = .ok (some "A1")
    ∧ (refresh_access_token ⟨none, some "R", none, none, 5, 0⟩ 100 1
        (.success ⟨some "A1", none, some 3600⟩)).store.refresh_count_today
      ≠ (⟨none, some "R", none, none, 5, 0⟩ : TokenStore).refresh_count_today
          + 1 :=
  ⟨rfl, by decide⟩

/-- C5 (amended): a refresh attempt whose network call fails (transport
error, non-2xx status or malformed body) raises the refresh-failed error and
leaves the access token, refresh token, expiry and last refresh time exactly
as before; the counter and date are also unchanged on a same-day attempt,
while on a day rollover the precondition check has already reset the counter
to 0 and set the date, independently of the failure. -/
theorem c5_refresh_failure_no_partial_writes (s : TokenStore)
    (now today : Int)
    (hrt : truthy s.refresh_token = true)
    (hok : (can_refresh_token s now today).1 = none) :
    (refresh_access_token s now today .failure).result = .error .refreshFailed
    ∧ (refresh_access_token s now today .failure).store.access_token
        = s.access_token
    ∧ (refresh_access_token s now today .failure).store.refresh_token
        = s.refresh_token
    ∧ (refresh_access_token s now today .failure).store.token_expires_at
        = s.token_expires_at
    ∧ (refresh_access_token s now today .failure).store.last_refresh_time
        = s.last_refresh_time
    ∧ (s.refresh_date = today →
        (refresh_access_token s now today .failure).store = s)
    ∧ (s.refresh_date ≠ today →
        (refresh_access_token s now today .failure).store.refresh_count_today
          = 0
        ∧ (refresh_access_token s now today .failure).store.refresh_date
          = today) := by
  rcases hcc : can_refresh_token s now today with ⟨oe, s1⟩
  rw [hcc] at hok
  have hoe : oe = none := hok
  subst hoe
  have hsnd2 : s1 = (if s.refresh_date ≠ today then
      { s with refresh_count_today := 0, refresh_date := today } else s) :=
    by have h2 := can_refresh_token_snd s now today; rw [hcc] at h2; exact h2
  have hfail : refresh_access_token s now today .failure
      = ⟨.error .refreshFailed, s1, true⟩ := by
    simp [refresh_access_token, hrt, hcc]
  rw [hfail]
  by_cases hd : s.refresh_date = today
  · have hs1 : s1 = s := by rw [hsnd2, if_neg (by simp [hd])]
    subst hs1
    exact ⟨rfl, rfl, rfl, rfl, rfl, fun _ => rfl, fun h => absurd hd h⟩
  · have hs1 : s1 = { s with refresh_count_today := 0,
                             refresh_date := today } := by
      rw [hsnd2, if_pos hd]
    subst hs1
    exact ⟨rfl, rfl, rfl, rfl, rfl, fun h => absurd h hd, fun _ => ⟨rfl, rfl⟩⟩

/-- Witness for C5: a same-day transport failure leaves the store intact. -/
theorem c5_refresh_failure_no_partial_writes_witness :
    (refresh_access_token ⟨some "A", some "R", some 0, none, 3, 0⟩ 100 0
        .failure).result = .error .refreshFailed
    ∧ (refresh_access_token ⟨some "A", some "R", some 0, none, 3, 0⟩ 100 0
        .failure).store = ⟨some "A", some "R", some 0, none, 3, 0⟩ :=
  have h := c5_refresh_failure_no_partial_writes
    ⟨some "A", some "R", some 0, none, 3, 0⟩ 100 0 rfl rfl
  ⟨h.1, h.2.2.2.2.2.1 rfl⟩

/-- C5 counterexample: when the calendar day has rolled over, a transport
failure still comes back with `refresh_count_today` reset from 5 to 0 — a
field change the claim rules out. -/
theorem c5_counterexample :
    (refresh_access_token ⟨some "A", some "R", some 0, none, 5, 0⟩ 100 1
        .failure).result = .error .refreshFailed
    ∧ (refresh_access_token ⟨some "A", some "R", some 0, none, 5, 0⟩ 100 1
        .failure).store.refresh_count_today
      ≠ (⟨some "A", some "R", some 0, none, 5, 0⟩ :
          TokenStore).refresh_count_today :=
  ⟨rfl, by decide⟩

/-- C10: a 2xx refresh response whose body has no `access_token` key still
completes the refresh: the counter is incremented, `last_refresh_time` is set
to now, the stored access token is overwritten with `None`, the refresh token
and expiry are updated, and the operation returns `None`. -/
theorem c10_success_without_access_token (s : TokenStore) (now today : Int)
    (body : RespBody)
    (hrt : truthy s.refresh_token = true)
    (hok : (can_refresh_token s now today).1 = none)
    (hbody : body.access_token = none) :
    (refresh_access_token s now today (.success body)).result = .ok none
    ∧ (refresh_access_token s now today (.success body)).store.access_token
        = none
    ∧ (refresh_access_token s now today
        (.success body)).store.refresh_count_today
        = (can_refresh_token s now today).2.refresh_count_today + 1
    ∧ (refresh_access_token s now today
        (.success body)).store.last_refresh_time = some now
    ∧ (refresh_access_token s now today (.success body)).store.refresh_token
        = (match body.refresh_token with
           | some r => some r
           | none => s.refresh_token)
    ∧ (refresh_access_token s now today
        (.success body)).store.token_expires_at
        = some (now + body.expires_in.getD 3600) := by
  rw [refresh_success_spec s now today body hrt hok, hbody]
  exact ⟨rfl, rfl, rfl, rfl, rfl, rfl⟩

/-- Witness for C10: body `\x7bexpires_in: 60\x7d` with no access token. -/
theorem c10_success_without_access_token_witness :
    (refresh_access_token ⟨some "A", some "R", some 0, none, 3, 0⟩ 500 0
        (.success ⟨none, none, some 60⟩)).result = .ok none
    ∧ (refresh_access_token ⟨some "A", some "R", some 0, none, 3, 0⟩ 500 0
        (.success ⟨none, none, some 60⟩)).store.access_token = none
    ∧ (refresh_access_token ⟨some "A", some "R", some 0, none, 3, 0⟩ 500 0
        (.success ⟨none, none, some 60⟩)).store.refresh_count_today = 4
    ∧ (refresh_access_token ⟨some "A", some "R", some 0, none, 3, 0⟩ 500 0
        (.success ⟨none, none, some 60⟩)).store.token_expires_at = some 560 :=
  have h := c10_success_without_access_token
    ⟨some "A", some "R", some 0, none, 3, 0⟩ 500 0 ⟨none, none, some 60⟩
    rfl rfl rfl
  ⟨h.1, h.2.1, h.2.2.1, h.2.2.2.2.2⟩

/-- C1 (amended): when the first attempt returns 401, the manager
force-expires the stored token and performs exactly one re-acquisition via
`get_valid_access_token`, resending at most once; if the re-acquisition
returns no token, the result is the original 401 with no resend; if it
returns any token — the fresh one, or the stale old token when the refresh
fails but an access token is still stored — the request is resent exactly
once with that token; a second 401 after the resend is terminal, with no
further sends. -/
theorem c1_retry_on_401 (s : TokenStore) (now today : Int)
    (a1 a2 : AuthResponse) (second : HttpAttempt)
    (hg1 : truthy (get_valid_access_token s now today a1).token = true) :
    (make_authenticated_request s now today a1 a2 (.status 401)
        second).getValidCalls = 2
    ∧ (make_authenticated_request s now today a1 a2 (.status 401)
        second).sends.length ≤ 2
    ∧ (truthy (get_valid_access_token
          (force_expire (get_valid_access_token s now today a1).store now)
          now today a2).token = false →
        make_authenticated_request s now today a1 a2 (.status 401) second
          = ⟨some 401,
              (get_valid_access_token
                (force_expire (get_valid_access_token s now today a1).store
                  now) now today a2).store,
              [(get_valid_access_token s now today a1).token.getD ""], 2⟩)
    ∧ (truthy (get_valid_access_token
          (force_expire (get_valid_access_token s now today a1).store now)
          now today a2).token = true →
        (make_authenticated_request s now today a1 a2 (.status 401)
            second).sends
          = [(get_valid_access_token s now today a1).token.getD "",
             (get_valid_access_token
               (force_expire (get_valid_access_token s now today a1).store
                 now) now today a2).token.getD ""])
    ∧ (truthy (get_valid_access_token
          (force_expire (get_valid_access_token s now today a1).store now)
          now today a2).token = true → second = .status 401 →
        make_authenticated_request s now today a1 a2 (.status 401) second
          = ⟨some 401,
              (get_valid_access_token
                (force_expire (get_valid_access_token s now today a1).store
                  now) now today a2).store,
              [(get_valid_access_token s now today a1).token.getD "",
               (get_valid_access_token
                 (force_expire (get_valid_access_token s now today a1).store
                   now) now today a2).token.getD ""], 2⟩) := by
  by_cases hg2 : truthy (get_valid_access_token
      (force_expire (get_valid_access_token s now today a1).store now)
      now today a2).token = true
  · cases second with
    | raise =>
      have hm : make_authenticated_request s now today a1 a2 (.status 401)
          .raise
          = ⟨none,
              (get_valid_access_token
                (force_expire (get_valid_access_token s now today a1).store
                  now) now today a2).store,
              [(get_valid_access_token s now today a1).token.getD "",
               (get_valid_access_token
                 (force_expire (get_valid_access_token s now today a1).store
                   now) now today a2).token.getD ""], 2⟩ := by
        simp [make_authenticated_request, hg1, hg2]
      rw [hm]
      exact ⟨rfl, by simp, fun hf => absurd hg2 (by simp [hf]),
        fun _ => rfl, fun _ h401 => by cases h401⟩
    | status code2 =>
      have hm : make_authenticated_request s now today a1 a2 (.status 401)
          (.status code2)
          = ⟨some code2,
              (get_valid_access_token
                (force_expire (get_valid_access_token s now today a1).store
                  now) now today a2).store,
              [(get_valid_access_token s now today a1).token.getD "",
               (get_valid_access_token
                 (force_expire (get_valid_access_token s now today a1).store
                   now) now today a2).token.getD ""], 2⟩ := by
        simp [make_authenticated_request, hg1, hg2]
      rw [hm]
      refine ⟨rfl, by simp, fun hf => absurd hg2 (by simp [hf]),
        fun _ => rfl, fun _ h401 => ?_⟩
      cases h401
      rfl
  · have hg2f : truthy (get_valid_access_token
        (force_expire (get_valid_access_token s now today a1).store now)
        now today a2).token = false := by
      simpa using hg2
    have hm : make_authenticated_request s now today a1 a2 (.status 401)
        second
        = ⟨some 401,
            (get_valid_access_token
              (force_expire (get_valid_access_token s now today a1).store
                now) now today a2).store,
            [(get_valid_access_token s now today a1).token.getD ""], 2⟩ := by
      simp [make_authenticated_request, hg1, hg2f]
    rw [hm]
    exact ⟨rfl, by simp, fun _ => rfl,
      fun ht => absurd ht (by simp [hg2f]),
      fun ht _ => absurd ht (by simp [hg2f])⟩

/-- Witness for C1: first attempt 401, retry refresh succeeds with token `N`,
resend returns 200; the two sends carry the old then the new token. -/
theorem c1_retry_on_401_witness :
    (make_authenticated_request ⟨some "T", some "R", some 10000, none, 0, 0⟩
        0 0 .failure (.success ⟨some "N", none, none⟩) (.status 401)
        (.status 200)).sends = ["T", "N"] :=
  (c1_retry_on_401 ⟨some "T", some "R", some 10000, none, 0, 0⟩ 0 0 .failure
    (.success ⟨some "N", none, none⟩) (.status 200) rfl).2.2.2.1 rfl

/-- C1 counterexample: first attempt 401, the retry refresh fails
(rate-limited), yet the stale-token fallback hands back the old token and the
request is resent with it — the claim says the request is never resent with
the old token when re-acquisition produces no fresh token. -/
theorem c1_counterexample :
    (make_authenticated_request ⟨some "OLD", some "R", some 10000, none, 10,
        0⟩ 0 0 .failure .failure (.status 401) (.status 401)).sends
      = ["OLD", "OLD"]
    ∧ (refresh_access_token (force_expire
        (get_valid_access_token ⟨some "OLD", some "R", some 10000, none, 10,
          0⟩ 0 0 .failure).store 0) 0 0 .failure).result
      = .error (.rateLimits .dailyLimit)
    ∧ (make_authenticated_request ⟨some "OLD", some "R", some 10000, none, 10,
        0⟩ 0 0 .failure .failure (.status 401) (.status 401)).result
      = some 401 :=
  ⟨rfl, rfl, rfl⟩
